import Mathlib

/-!
Shallow embedding of the soundcloud-rs client library (src/lib.rs, src/error.rs,
src/client.rs, src/track.rs) and proofs about its request-building and
response-resolution layer.

Conventions of the embedding:
* Rust `Result<T, E>` becomes `Except E T`; a Rust panic (`unwrap`,
  `unimplemented!`) is modelled by a distinguished `panic` outcome or by
  `Option.none` where the surrounding function propagates it.
* The HTTP transport is a function parameter `http : Url → Except HttpErr Response`;
  operations additionally return the list of URLs they requested, so that
  "no network request" and "exactly one follow-up request" are provable.
* JSON response bodies are modelled as already-parsed `Json` values; serde's
  derived `Deserialize` for the record types is embedded field by field.
* Machine integers (`u64`, `usize`) are modelled as `Nat`; the library never
  performs arithmetic on them, so no overflow modelling is needed.
-/

namespace Soundcloud

/-- JSON values, as produced by serde_json (`serde_json::Value`). Numbers are
modelled as integers; the library only decodes integral fields. -/
inductive Json where
  | null
  | bool (b : Bool)
  | num (n : Int)
  | str (s : String)
  | arr (elems : List Json)
  | obj (fields : List (String × Json))

/-- Opaque payload of `hyper::Error` (transport failure). -/
structure HttpErr where
  msg : String
deriving DecidableEq, Repr

/-- Opaque payload of `serde_json::Error` (serialization failure). -/
structure JsonErr where
  msg : String
deriving DecidableEq, Repr

/-- Opaque payload of `std::io::Error` (sink failure). -/
structure IoErr where
  msg : String
deriving DecidableEq, Repr

/-- The error taxonomy of src/error.rs (`enum Error`). -/
inductive Error where
  | apiError (msg : String)
  | jsonError (e : JsonErr)
  | httpError (e : HttpErr)
  | invalidFilter (s : String)
  | ioError (e : IoErr)
  | trackNotDownloadable
  | trackNotStreamable
deriving DecidableEq, Repr

/-- Embedding of `enum Filter` from src/track.rs. -/
inductive Filter where
  | All
  | Public
  | Private
deriving DecidableEq, Repr

/-- Embedding of `Filter::to_str` from src/track.rs. -/
def Filter.to_str : Filter → String
  | .All => "all"
  | .Public => "public"
  | .Private => "private"

/-- Embedding of `impl str::FromStr for Filter` from src/track.rs: the three lowercase
tokens parse, everything else is `Error::InvalidFilter` carrying the input. -/
def Filter.from_str (s : String) : Except Error Filter :=
  if s = "all" then .ok .All
  else if s = "public" then .ok .Public
  else if s = "private" then .ok .Private
  else .error (.invalidFilter s)

/-- Embedding of `struct App` from src/client.rs (registered client application). -/
structure App where
  id : Nat
  uri : String
  permalink_url : String
  external_url : String
  creator : Option String
deriving DecidableEq, Repr

/-- Embedding of `struct User` from src/client.rs (registered user). The serde renames
`discogs-name`, `myspace-name`, `website-title` live in the decoder. -/
structure User where
  id : Nat
  permalink : String
  username : String
  uri : String
  permalink_url : String
  avatar_url : String
  country : Option String
  full_name : Option String
  city : Option String
  description : Option String
  discogs_name : Option String
  myspace_name : Option String
  website : Option String
  website_title : Option String
  online : Option Bool
  track_count : Option Nat
  playlist_count : Option Nat
  followers_count : Option Nat
  followings_count : Option Nat
  public_favorites_count : Option Nat
deriving DecidableEq, Repr

/-- Embedding of `struct Track` from src/track.rs (uploaded track). `label` holds an
arbitrary `serde_json::Value`; `asset_data`/`artwork_data` hold raw bytes. -/
structure Track where
  id : Nat
  created_at : String
  user_id : Nat
  user : User
  title : String
  permalink : String
  permalink_url : String
  uri : String
  sharing : String
  embeddable_by : String
  purchase_url : Option String
  artwork_url : Option String
  description : Option String
  label : Option Json
  duration : Nat
  genre : Option String
  tags : Option String
  label_id : Option Nat
  label_name : Option String
  release : Option String
  release_day : Option Nat
  release_month : Option Nat
  release_year : Option Nat
  streamable : Bool
  downloadable : Bool
  purchase_title : Option String
  state : String
  license : String
  track_type : Option String
  waveform_url : String
  download_url : Option String
  stream_url : Option String
  video_url : Option String
  bpm : Option Nat
  commentable : Bool
  isrc : Option String
  key_signature : Option String
  comment_count : Nat
  download_count : Nat
  playback_count : Nat
  favoritings_count : Nat
  original_format : String
  original_content_size : Nat
  created_with : Option App
  asset_data : Option (List Nat)
  artwork_data : Option (List Nat)
  user_favorite : Option Bool

/-- Embedding of `impl PartialEq for Track` from src/track.rs: `self == other` is
`other.id == self.id`. -/
def trackEq (self other : Track) : Bool :=
  other.id == self.id

/-- Embedding of `API_HOST` from src/lib.rs. -/
def API_HOST : String := "api.soundcloud.com"

/-- Prefix test on character lists (`List.isPrefixOf`, restated so that an
empty pattern reduces without inspecting the list). -/
def prefixChars : List Char → List Char → Bool
  | [], _ => true
  | _ :: _, [] => false
  | p :: ps, c :: cs => (p == c) && prefixChars ps cs

/-- Splits a character list around the first occurrence of the pattern `pat`,
returning the characters before it and the characters after it. Used to locate
the `://` scheme separator when parsing a URL string. -/
def findSplit (pat : List Char) : List Char → Option (List Char × List Char)
  | [] => none
  | c :: rest =>
    if prefixChars pat (c :: rest) then some ([], (c :: rest).drop pat.length)
    else
      match findSplit pat rest with
      | some (b, a) => some (c :: b, a)
      | none => none

/-- Splits a character list around the first occurrence of the character `c`. -/
def splitFirst (c : Char) : List Char → Option (List Char × List Char)
  | [] => none
  | x :: rest =>
    if x = c then some ([], rest)
    else
      match splitFirst c rest with
      | some (b, a) => some (x :: b, a)
      | none => none

/-- Splits a character list at every occurrence of the character `c`. -/
def splitOnChar (c : Char) : List Char → List (List Char)
  | [] => [[]]
  | x :: rest =>
    if x = c then [] :: splitOnChar c rest
    else
      match splitOnChar c rest with
      | [] => [[x]]
      | h :: t => (x :: h) :: t

/-- One `key=value` query component; a component without `=` is a key with an
empty value (the url crate's pair semantics). -/
def parseQueryPair (l : List Char) : String × String :=
  match splitFirst '=' l with
  | some (k, v) => (String.mk k, String.mk v)
  | none => (String.mk l, "")

/-- The query pairs of a raw query string; an empty query has no pairs. -/
def parseQueryPairs (l : List Char) : List (String × String) :=
  if l = [] then [] else (splitOnChar '&' l).map parseQueryPair

/-- A parsed URL, as far as this library observes it: the scheme, the
host-and-path portion, and the query as an ordered pair list (the url crate's
`query_pairs` view). -/
structure Url where
  scheme : String
  hostPath : String
  query : List (String × String)
deriving DecidableEq, Repr

/-- Embedding of `Url::parse`: an absolute URL must contain a scheme separator `://`
(otherwise the url crate fails with `RelativeUrlWithoutBase` — modelled as
`none`); the query is everything after the first `?`. -/
def urlParse (s : String) : Option Url :=
  match findSplit "://".data s.data with
  | none => none
  | some (scheme, rest) =>
    match splitFirst '?' rest with
    | none => some ⟨String.mk scheme, String.mk rest, []⟩
    | some (hp, q) => some ⟨String.mk scheme, String.mk hp, parseQueryPairs q⟩

/-- The URL built by `Client::get` (src/client.rs lines 158-170): parse
`https://{API_HOST}{path}` (`unwrap` panic modelled as `none`), append the
`client_id` pair to whatever query the parsed URL already has, then append
every caller parameter in order (`extend_pairs`). -/
def clientGetUrl (client_id : String) (path : String)
    (params : Option (List (String × String))) : Option Url :=
  match urlParse ("https://" ++ API_HOST ++ path) with
  | none => none
  | some url =>
    let url := { url with query := url.query ++ [("client_id", client_id)] }
    match params with
    | some ps => some { url with query := url.query ++ ps }
    | none => some url

/-- Embedding of `Client::parse_url` (src/client.rs lines 261-265): parse the given string
(`unwrap` panic modelled as `none`) and append the `client_id` pair. -/
def parse_url (client_id : String) (s : String) : Option Url :=
  match urlParse s with
  | none => none
  | some url => some { url with query := url.query ++ [("client_id", client_id)] }

/-- An HTTP response as this library observes it: the optional `Location`
header, the body parsed as JSON (for the track endpoints, which feed the body
to `serde_json::from_reader`), and the raw body bytes (for `io::copy` in the
media-transfer path). -/
structure Response where
  location : Option String
  json : Json
  bytes : List Nat

/-- Outcome of a fallible library call: Rust's `Ok`, `Err`, or a panic
(`unwrap` / `unimplemented!`). -/
inductive Outcome (α : Type) where
  | ok (val : α)
  | err (e : Error)
  | panic

/-- Field lookup in a JSON object (serde's map access; first binding wins). -/
def jLookup (fields : List (String × Json)) (k : String) : Option Json :=
  (fields.find? (fun p => p.1 == k)).map Prod.snd

/-- serde decode of `u64`/`usize`: a non-negative integral number. -/
def decU64 : Json → Option Nat
  | .num n => if 0 ≤ n then some n.toNat else none
  | _ => none

/-- serde decode of `String`. -/
def decString : Json → Option String
  | .str s => some s
  | _ => none

/-- serde decode of `bool`. -/
def decBool : Json → Option Bool
  | .bool b => some b
  | _ => none

/-- serde decode of `u8`. -/
def decByte : Json → Option Nat
  | .num n => if 0 ≤ n ∧ n < 256 then some n.toNat else none
  | _ => none

/-- serde decode of `Vec<u8>`. -/
def decBytes : Json → Option (List Nat)
  | .arr xs => xs.mapM decByte
  | _ => none

/-- serde decode of `serde_json::Value`: any value succeeds. -/
def decValue (j : Json) : Option Json :=
  some j

/-- A required struct field: missing key or a value of the wrong shape is a
decode error. -/
def decField (d : Json → Option α) (fields : List (String × Json)) (k : String) : Option α :=
  (jLookup fields k).bind d

/-- An `Option<T>` struct field: a missing key or an explicit `null` decodes
to `None`; any other value must decode as `T`. -/
def decOptField (d : Json → Option α) (fields : List (String × Json)) (k : String) :
    Option (Option α) :=
  match jLookup fields k with
  | none => some none
  | some .null => some none
  | some v => (d v).map some

/-- Derived `Deserialize` for `App` (src/client.rs): every non-`Option` field
is required, `Option` fields default to `none` when missing or `null`. The
simultaneous match is result-equivalent to serde\'s sequential field decode:
the decode succeeds with the record exactly when every field decodes. -/
def appFromValue : Json → Option App
  | .obj fields =>
    (match decField decU64 fields "id",
        decField decString fields "uri",
        decField decString fields "permalink_url",
        decField decString fields "external_url",
        decOptField decString fields "creator" with
     | some id, some uri, some permalink_url, some external_url, some creator =>
       some { id, uri, permalink_url, external_url, creator }
     | _, _, _, _, _ => none)
  | _ => none

/-- Derived `Deserialize` for `User` (src/client.rs), honoring the
`discogs-name` / `myspace-name` / `website-title` wire renames. -/
def userFromValue : Json → Option User
  | .obj fields =>
    (match decField decU64 fields "id",
        decField decString fields "permalink",
        decField decString fields "username",
        decField decString fields "uri",
        decField decString fields "permalink_url",
        decField decString fields "avatar_url",
        decOptField decString fields "country",
        decOptField decString fields "full_name",
        decOptField decString fields "city",
        decOptField decString fields "description",
        decOptField decString fields "discogs-name",
        decOptField decString fields "myspace-name",
        decOptField decString fields "website",
        decOptField decString fields "website-title",
        decOptField decBool fields "online",
        decOptField decU64 fields "track_count",
        decOptField decU64 fields "playlist_count",
        decOptField decU64 fields "followers_count",
        decOptField decU64 fields "followings_count",
        decOptField decU64 fields "public_favorites_count" with
     | some id, some permalink, some username, some uri, some permalink_url, some avatar_url, some country, some full_name, some city, some description, some discogs_name, some myspace_name, some website, some website_title, some online, some track_count, some playlist_count, some followers_count, some followings_count, some public_favorites_count =>
       some { id, permalink, username, uri, permalink_url, avatar_url, country, full_name, city, description, discogs_name, myspace_name, website, website_title, online, track_count, playlist_count, followers_count, followings_count, public_favorites_count }
     | _, _, _, _, _, _, _, _, _, _, _, _, _, _, _, _, _, _, _, _ => none)
  | _ => none

/-- Derived `Deserialize` for `Track` (src/track.rs):
`serde_json::from_value::<Track>`. -/
def trackFromValue : Json → Option Track
  | .obj fields =>
    (match decField decU64 fields "id",
        decField decString fields "created_at",
        decField decU64 fields "user_id",
        decField userFromValue fields "user",
        decField decString fields "title",
        decField decString fields "permalink",
        decField decString fields "permalink_url",
        decField decString fields "uri",
        decField decString fields "sharing",
        decField decString fields "embeddable_by",
        decOptField decString fields "purchase_url",
        decOptField decString fields "artwork_url",
        decOptField decString fields "description",
        decOptField decValue fields "label",
        decField decU64 fields "duration",
        decOptField decString fields "genre",
        decOptField decString fields "tags",
        decOptField decU64 fields "label_id",
        decOptField decString fields "label_name",
        decOptField decString fields "release",
        decOptField decU64 fields "release_day",
        decOptField decU64 fields "release_month",
        decOptField decU64 fields "release_year",
        decField decBool fields "streamable",
        decField decBool fields "downloadable",
        decOptField decString fields "purchase_title",
        decField decString fields "state",
        decField decString fields "license",
        decOptField decString fields "track_type",
        decField decString fields "waveform_url",
        decOptField decString fields "download_url",
        decOptField decString fields "stream_url",
        decOptField decString fields "video_url",
        decOptField decU64 fields "bpm",
        decField decBool fields "commentable",
        decOptField decString fields "isrc",
        decOptField decString fields "key_signature",
        decField decU64 fields "comment_count",
        decField decU64 fields "download_count",
        decField decU64 fields "playback_count",
        decField decU64 fields "favoritings_count",
        decField decString fields "original_format",
        decField decU64 fields "original_content_size",
        decOptField appFromValue fields "created_with",
        decOptField decBytes fields "asset_data",
        decOptField decBytes fields "artwork_data",
        decOptField decBool fields "user_favorite" with
     | some id, some created_at, some user_id, some user, some title, some permalink, some permalink_url, some uri, some sharing, some embeddable_by, some purchase_url, some artwork_url, some description, some label, some duration, some genre, some tags, some label_id, some label_name, some release, some release_day, some release_month, some release_year, some streamable, some downloadable, some purchase_title, some state, some license, some track_type, some waveform_url, some download_url, some stream_url, some video_url, some bpm, some commentable, some isrc, some key_signature, some comment_count, some download_count, some playback_count, some favoritings_count, some original_format, some original_content_size, some created_with, some asset_data, some artwork_data, some user_favorite =>
       some { id, created_at, user_id, user, title, permalink, permalink_url, uri, sharing, embeddable_by, purchase_url, artwork_url, description, label, duration, genre, tags, label_id, label_name, release, release_day, release_month, release_year, streamable, downloadable, purchase_title, state, license, track_type, waveform_url, download_url, stream_url, video_url, bpm, commentable, isrc, key_signature, comment_count, download_count, playback_count, favoritings_count, original_format, original_content_size, created_with, asset_data, artwork_data, user_favorite }
     | _, _, _, _, _, _, _, _, _, _, _, _, _, _, _, _, _, _, _, _, _, _, _, _, _, _, _, _, _, _, _, _, _, _, _, _, _, _, _, _, _, _, _, _, _, _, _ => none)
  | _ => none

/-- Embedding of `struct TrackRequestBuilder` from src/track.rs (the borrowed `client`
reference is not part of the accumulated request state and is not modelled). -/
structure TrackRequestBuilder where
  query : Option String
  tags : Option String
  filter : Option Filter
  license : Option String
  ids : Option (List Nat)
  duration : Option (Nat × Nat)
  bpm : Option (Nat × Nat)
  genres : Option String
  types : Option String
deriving DecidableEq, Repr

/-- Embedding of `TrackRequestBuilder::new`: all fields unset. -/
def TrackRequestBuilder.new : TrackRequestBuilder :=
  { query := none, tags := none, filter := none, license := none, ids := none,
    duration := none, bpm := none, genres := none, types := none }

/-- Setter `TrackRequestBuilder::query` (named `set_query` here because the
field projection already carries the source name). -/
def TrackRequestBuilder.set_query (b : TrackRequestBuilder) (query : Option String) :
    TrackRequestBuilder :=
  { b with query := query }

/-- Setter `TrackRequestBuilder::tags`: the tag list is comma-joined at set
time. -/
def TrackRequestBuilder.set_tags (b : TrackRequestBuilder) (tags : Option (List String)) :
    TrackRequestBuilder :=
  { b with tags := tags.map (fun ts => String.intercalate "," ts) }

/-- Setter `TrackRequestBuilder::genres`: the genre list is comma-joined at
set time. -/
def TrackRequestBuilder.set_genres (b : TrackRequestBuilder) (genres : Option (List String)) :
    TrackRequestBuilder :=
  { b with genres := genres.map (fun gs => String.intercalate "," gs) }

/-- Setter `TrackRequestBuilder::filter`. -/
def TrackRequestBuilder.set_filter (b : TrackRequestBuilder) (filter : Option Filter) :
    TrackRequestBuilder :=
  { b with filter := filter }

/-- Setter `TrackRequestBuilder::license`. -/
def TrackRequestBuilder.set_license (b : TrackRequestBuilder) (license : Option String) :
    TrackRequestBuilder :=
  { b with license := license }

/-- Setter `TrackRequestBuilder::ids`. -/
def TrackRequestBuilder.set_ids (b : TrackRequestBuilder) (ids : Option (List Nat)) :
    TrackRequestBuilder :=
  { b with ids := ids }

/-- Embedding of `TrackRequestBuilder::request_params` (src/track.rs lines 291-328): the
serialized parameter list, in source order `q`, `tags`, `filter`, `ids`,
`genres`, `types`; ids are rendered as comma-joined decimals; a set `duration`
or `bpm` hits `unimplemented!()`, modelled as `none`; `license` is never
serialized. -/
def TrackRequestBuilder.request_params (b : TrackRequestBuilder) :
    Option (List (String × String)) :=
  let result := (match b.query with | some q => [("q", q)] | none => [])
  let result := result ++ (match b.tags with | some t => [("tags", t)] | none => [])
  let result := result ++
    (match b.filter with | some f => [("filter", f.to_str)] | none => [])
  let result := result ++
    (match b.ids with
     | some ids => [("ids", String.intercalate "," (ids.map (fun i => Nat.repr i)))]
     | none => [])
  match b.duration with
  | some _ => none
  | none =>
    match b.bpm with
    | some _ => none
    | none =>
      let result := result ++
        (match b.genres with | some g => [("genres", g)] | none => [])
      let result := result ++
        (match b.types with | some t => [("types", t)] | none => [])
      some result

/-- Embedding of `TrackRequestBuilder::get` (src/track.rs lines 271-289): serialize the
parameters, issue the authenticated GET against `/tracks`, then decode the
body: an array decodes element-wise (`unwrap` on each element — a malformed
element is a panic), an empty array is `Ok(None)`, and anything that is not an
array is `Error::ApiError("expected response to be an array")`. Returns the
outcome together with the list of requested URLs. -/
def TrackRequestBuilder.get (client_id : String)
    (http : Url → Except HttpErr Response) (b : TrackRequestBuilder) :
    Outcome (Option (List Track)) × List Url :=
  match b.request_params with
  | none => (.panic, [])
  | some ps =>
    match clientGetUrl client_id "/tracks" (some ps) with
    | none => (.panic, [])
    | some url =>
      match http url with
      | .error e => (.err (.httpError e), [url])
      | .ok response =>
        match response.json with
        | .arr track_list =>
          if track_list.isEmpty then (.ok none, [url])
          else
            match track_list.mapM trackFromValue with
            | some tracks => (.ok (some tracks), [url])
            | none => (.panic, [url])
        | _ => (.err (.apiError "expected response to be an array"), [url])

/-- Embedding of `Client::download` (src/client.rs lines 176-193): check `downloadable` and
the presence of `download_url` before any request; then GET the asset URL with
the credential appended, follow a `Location` header exactly once, and copy the
final body to the sink. Returns the outcome together with the list of
requested URLs. -/
def Client.download (client_id : String) (http : Url → Except HttpErr Response)
    (sink : List Nat → Except IoErr Nat) (track : Track) : Outcome Nat × List Url :=
  if !track.downloadable || !track.download_url.isSome then
    (.err .trackNotDownloadable, [])
  else
    match track.download_url with
    | none => (.panic, [])
    | some durl =>
      match parse_url client_id durl with
      | none => (.panic, [])
      | some url =>
        match http url with
        | .error e => (.err (.httpError e), [url])
        | .ok response =>
          match response.location with
          | some header =>
            match urlParse header with
            | none => (.panic, [url])
            | some url2 =>
              match http url2 with
              | .error e => (.err (.httpError e), [url, url2])
              | .ok response2 =>
                match sink response2.bytes with
                | .error e => (.err (.ioError e), [url, url2])
                | .ok n => (.ok n, [url, url2])
          | none =>
            match sink response.bytes with
            | .error e => (.err (.ioError e), [url])
            | .ok n => (.ok n, [url])

/-- Embedding of `Client::stream` (src/client.rs lines 197-214): identical to `download`
with `streamable` / `stream_url` / `TrackNotStreamable`. -/
def Client.stream (client_id : String) (http : Url → Except HttpErr Response)
    (sink : List Nat → Except IoErr Nat) (track : Track) : Outcome Nat × List Url :=
  if !track.streamable || !track.stream_url.isSome then
    (.err .trackNotStreamable, [])
  else
    match track.stream_url with
    | none => (.panic, [])
    | some surl =>
      match parse_url client_id surl with
      | none => (.panic, [])
      | some url =>
        match http url with
        | .error e => (.err (.httpError e), [url])
        | .ok response =>
          match response.location with
          | some header =>
            match urlParse header with
            | none => (.panic, [url])
            | some url2 =>
              match http url2 with
              | .error e => (.err (.httpError e), [url, url2])
              | .ok response2 =>
                match sink response2.bytes with
                | .error e => (.err (.ioError e), [url, url2])
                | .ok n => (.ok n, [url, url2])
          | none =>
            match sink response.bytes with
            | .error e => (.err (.ioError e), [url])
            | .ok n => (.ok n, [url])

/-- Embedding of `Client::resolve` (src/client.rs lines 217-226): GET `/resolve` with the
target URL as the `url` parameter; a `Location` header is parsed and returned
(`unwrap` panic on an unparseable header), a missing header is
`Error::ApiError("expected location header")`. Returns the outcome together
with the list of requested URLs. -/
def Client.resolve (client_id : String) (http : Url → Except HttpErr Response)
    (url : String) : Outcome Url × List Url :=
  match clientGetUrl client_id "/resolve" (some [("url", url)]) with
  | none => (.panic, [])
  | some u =>
    match http u with
    | .error e => (.err (.httpError e), [u])
    | .ok response =>
      match response.location with
      | some header =>
        match urlParse header with
        | none => (.panic, [u])
        | some loc => (.ok loc, [u])
      | none => (.err (.apiError "expected location header"), [u])

/-- A concrete user record, for witnesses. -/
def sampleUser : User :=
  { id := 1, permalink := "u", username := "u", uri := "u", permalink_url := "u",
    avatar_url := "u", country := none, full_name := none, city := none,
    description := none, discogs_name := none, myspace_name := none,
    website := none, website_title := none, online := none, track_count := none,
    playlist_count := none, followers_count := none, followings_count := none,
    public_favorites_count := none }

/-- A concrete track record that passes both media-transfer preconditions,
for witnesses. -/
def sampleTrack : Track :=
  { id := 42, created_at := "2016/01/01", user_id := 1, user := sampleUser,
    title := "t", permalink := "t", permalink_url := "t", uri := "t",
    sharing := "public", embeddable_by := "all", purchase_url := none,
    artwork_url := none, description := none, label := none, duration := 100,
    genre := none, tags := none, label_id := none, label_name := none,
    release := none, release_day := none, release_month := none,
    release_year := none, streamable := true, downloadable := true,
    purchase_title := none, state := "finished", license := "cc",
    track_type := none, waveform_url := "w",
    download_url := some "https://api.soundcloud.com/tracks/42/download",
    stream_url := some "https://api.soundcloud.com/tracks/42/stream",
    video_url := none, bpm := none, commentable := true, isrc := none,
    key_signature := none, comment_count := 0, download_count := 0,
    playback_count := 0, favoritings_count := 0, original_format := "mp3",
    original_content_size := 1000, created_with := none, asset_data := none,
    artwork_data := none, user_favorite := none }

-- THEOREMS

/-- C1 (the code contradicts the claim): a track-search response whose
top-level JSON value is an array containing one element that does not decode
as a track record (here an empty object, missing the required `id` field)
makes the execute operation panic — `TrackRequestBuilder::get` calls
`.unwrap()` on each element's decode result — rather than return a decode
error identifying that element. -/
theorem c1_malformed_element_panics :
    (TrackRequestBuilder.get "client"
      (fun _ => .ok ⟨none, .arr [.obj []], []⟩) TrackRequestBuilder.new).1 =
      .panic := by
  rfl

/-- C2: when the availability flag for the requested mode is `false` or the
corresponding asset URL is absent, `download` returns `TrackNotDownloadable`
and `stream` returns `TrackNotStreamable`, and the list of issued requests is
empty (no network call of any kind is made). -/
theorem c2_precondition_no_network (client_id : String)
    (http : Url → Except HttpErr Response) (sink : List Nat → Except IoErr Nat)
    (track : Track) :
    (track.downloadable = false ∨ track.download_url = none →
      Client.download client_id http sink track = (.err .trackNotDownloadable, [])) ∧
    (track.streamable = false ∨ track.stream_url = none →
      Client.stream client_id http sink track = (.err .trackNotStreamable, [])) := by
  constructor
  · intro h
    unfold Client.download
    rcases h with h | h <;> simp [h]
  · intro h
    unfold Client.stream
    rcases h with h | h <;> simp [h]

/-- Witness for C2: a track with `downloadable := false` (resp. a track with
`stream_url := none`) fails with the dedicated error and zero requests. -/
theorem c2_precondition_no_network_witness :
    Client.download "client" (fun _ => .ok ⟨none, .null, []⟩)
      (fun bs => .ok bs.length) { sampleTrack with downloadable := false } =
      (.err .trackNotDownloadable, []) ∧
    Client.stream "client" (fun _ => .ok ⟨none, .null, []⟩)
      (fun bs => .ok bs.length) { sampleTrack with stream_url := none } =
      (.err .trackNotStreamable, []) :=
  ⟨(c2_precondition_no_network "client" _ _ _).1 (Or.inl rfl),
   (c2_precondition_no_network "client" _ _ _).2 (Or.inr rfl)⟩

/-- C3: media transfer performs at most one redirect follow-up. For every
invocation the request trace never exceeds two GETs; and past the
precondition, a first response carrying a `Location` header leads to exactly
the trace `[asset URL, location URL]` — whatever the follow-up response
contains (in particular a `Location` header on it never triggers a further
GET) — while a first response without one leads to exactly `[asset URL]`. -/
theorem c3_single_redirect_hop (client_id : String)
    (http : Url → Except HttpErr Response) (sink : List Nat → Except IoErr Nat)
    (track : Track) :
    ((Client.download client_id http sink track).2.length ≤ 2 ∧
     (Client.stream client_id http sink track).2.length ≤ 2) ∧
    (∀ du u resp, track.downloadable = true → track.download_url = some du →
      parse_url client_id du = some u → http u = .ok resp →
      (∀ h u2, resp.location = some h → urlParse h = some u2 →
        (Client.download client_id http sink track).2 = [u, u2]) ∧
      (resp.location = none →
        (Client.download client_id http sink track).2 = [u])) ∧
    (∀ su u resp, track.streamable = true → track.stream_url = some su →
      parse_url client_id su = some u → http u = .ok resp →
      (∀ h u2, resp.location = some h → urlParse h = some u2 →
        (Client.stream client_id http sink track).2 = [u, u2]) ∧
      (resp.location = none →
        (Client.stream client_id http sink track).2 = [u])) := by
  refine ⟨⟨?_, ?_⟩, ?_, ?_⟩
  · unfold Client.download
    repeat' split
    all_goals simp
  · unfold Client.stream
    repeat' split
    all_goals simp
  · intro du u resp hdl hdu hpu hh
    constructor
    · intro h u2 hl hu2
      rcases h2 : http u2 with e | r2
      · simp [Client.download, hdl, hdu, hpu, hh, hl, hu2, h2]
      · rcases h3 : sink r2.bytes with e3 | n3 <;>
          simp [Client.download, hdl, hdu, hpu, hh, hl, hu2, h2, h3]
    · intro hl
      rcases h3 : sink resp.bytes with e3 | n3 <;>
        simp [Client.download, hdl, hdu, hpu, hh, hl, h3]
  · intro su u resp hst hsu hpu hh
    constructor
    · intro h u2 hl hu2
      rcases h2 : http u2 with e | r2
      · simp [Client.stream, hst, hsu, hpu, hh, hl, hu2, h2]
      · rcases h3 : sink r2.bytes with e3 | n3 <;>
          simp [Client.stream, hst, hsu, hpu, hh, hl, hu2, h2, h3]
    · intro hl
      rcases h3 : sink resp.bytes with e3 | n3 <;>
        simp [Client.stream, hst, hsu, hpu, hh, hl, h3]

/-- Witness for C3: against a transport that always answers with a `Location`
header, the download (resp. stream) of `sampleTrack` issues exactly the asset
GET and one follow-up GET — the follow-up response's own `Location` header is
ignored. -/
theorem c3_single_redirect_hop_witness :
    (Client.download "cid" (fun _ => .ok ⟨some "https://cdn.example/file", .null, [7, 7]⟩)
      (fun bs => .ok bs.length) sampleTrack).2 =
      [⟨"https", "api.soundcloud.com/tracks/42/download", [("client_id", "cid")]⟩,
       ⟨"https", "cdn.example/file", []⟩] ∧
    (Client.stream "cid" (fun _ => .ok ⟨some "https://cdn.example/file", .null, [7, 7]⟩)
      (fun bs => .ok bs.length) sampleTrack).2 =
      [⟨"https", "api.soundcloud.com/tracks/42/stream", [("client_id", "cid")]⟩,
       ⟨"https", "cdn.example/file", []⟩] :=
  ⟨((c3_single_redirect_hop "cid"
      (fun _ => .ok ⟨some "https://cdn.example/file", .null, [7, 7]⟩)
      (fun bs => .ok bs.length) sampleTrack).2.1
      "https://api.soundcloud.com/tracks/42/download"
      ⟨"https", "api.soundcloud.com/tracks/42/download", [("client_id", "cid")]⟩
      ⟨some "https://cdn.example/file", .null, [7, 7]⟩ rfl rfl rfl rfl).1
      "https://cdn.example/file" ⟨"https", "cdn.example/file", []⟩ rfl rfl,
   ((c3_single_redirect_hop "cid"
      (fun _ => .ok ⟨some "https://cdn.example/file", .null, [7, 7]⟩)
      (fun bs => .ok bs.length) sampleTrack).2.2
      "https://api.soundcloud.com/tracks/42/stream"
      ⟨"https", "api.soundcloud.com/tracks/42/stream", [("client_id", "cid")]⟩
      ⟨some "https://cdn.example/file", .null, [7, 7]⟩ rfl rfl rfl rfl).1
      "https://cdn.example/file" ⟨"https", "cdn.example/file", []⟩ rfl rfl⟩

/-- C4: for every track-search execute, an empty JSON array body yields the
distinguished no-results value `Ok(None)` (not an error, not an empty list),
and a non-array top-level body yields
`ApiError "expected response to be an array"`. -/
theorem c4_empty_vs_nonarray (client_id : String)
    (http : Url → Except HttpErr Response) (b : TrackRequestBuilder)
    (ps : List (String × String)) (url : Url) (resp : Response)
    (hp : b.request_params = some ps)
    (hu : clientGetUrl client_id "/tracks" (some ps) = some url)
    (hh : http url = .ok resp) :
    (resp.json = .arr [] →
      TrackRequestBuilder.get client_id http b = (.ok none, [url])) ∧
    ((∀ xs : List Json, resp.json ≠ .arr xs) →
      TrackRequestBuilder.get client_id http b =
        (.err (.apiError "expected response to be an array"), [url])) := by
  constructor
  · intro hj
    unfold TrackRequestBuilder.get
    simp [hp, hu, hh, hj]
  · intro hj
    unfold TrackRequestBuilder.get
    simp only [hp, hu, hh]

/-- Witness for C4: an empty-array body gives `Ok(None)`; a `null` body gives
the array-shape `ApiError`. -/
theorem c4_empty_vs_nonarray_witness :
    TrackRequestBuilder.get "cid" (fun _ => .ok ⟨none, .arr [], []⟩)
      TrackRequestBuilder.new =
      (.ok none, [⟨"https", "api.soundcloud.com/tracks", [("client_id", "cid")]⟩]) ∧
    TrackRequestBuilder.get "cid" (fun _ => .ok ⟨none, .null, []⟩)
      TrackRequestBuilder.new =
      (.err (.apiError "expected response to be an array"),
       [⟨"https", "api.soundcloud.com/tracks", [("client_id", "cid")]⟩]) :=
  ⟨(c4_empty_vs_nonarray "cid" (fun _ => .ok ⟨none, .arr [], []⟩)
      TrackRequestBuilder.new []
      ⟨"https", "api.soundcloud.com/tracks", [("client_id", "cid")]⟩
      ⟨none, .arr [], []⟩ rfl rfl rfl).1 rfl,
   (c4_empty_vs_nonarray "cid" (fun _ => .ok ⟨none, .null, []⟩)
      TrackRequestBuilder.new []
      ⟨"https", "api.soundcloud.com/tracks", [("client_id", "cid")]⟩
      ⟨none, .null, []⟩ rfl rfl rfl).2 (fun _ h => nomatch h)⟩

/-- C5: for every resolve invocation, a response with a `Location` header
yields that header parsed as a URL; a response without one yields the
API-semantics error `ApiError "expected location header"`, whose constructor
is distinct from the transport (`httpError`) and serialization (`jsonError`)
kinds. -/
theorem c5_resolve_location (client_id target : String)
    (http : Url → Except HttpErr Response) (u : Url) (resp : Response)
    (hu : clientGetUrl client_id "/resolve" (some [("url", target)]) = some u)
    (hh : http u = .ok resp) :
    (∀ h loc, resp.location = some h → urlParse h = some loc →
      Client.resolve client_id http target = (.ok loc, [u])) ∧
    (resp.location = none →
      Client.resolve client_id http target =
        (.err (.apiError "expected location header"), [u])) ∧
    (∀ s e, Error.apiError s ≠ Error.httpError e) ∧
    (∀ s e, Error.apiError s ≠ Error.jsonError e) := by
  refine ⟨?_, ?_, ?_, ?_⟩
  · intro h loc hl hp
    unfold Client.resolve
    simp [hu, hh, hl, hp]
  · intro hl
    unfold Client.resolve
    simp [hu, hh, hl]
  · intro s e hcontra
    cases hcontra
  · intro s e hcontra
    cases hcontra

/-- Witness for C5: a `Location: https://api.example/tracks/1` response
resolves to that URL; a response without the header gives the `ApiError`. -/
theorem c5_resolve_location_witness :
    Client.resolve "cid" (fun _ => .ok ⟨some "https://api.example/tracks/1", .null, []⟩)
      "x" =
      (.ok ⟨"https", "api.example/tracks/1", []⟩,
       [⟨"https", "api.soundcloud.com/resolve",
         [("client_id", "cid"), ("url", "x")]⟩]) ∧
    Client.resolve "cid" (fun _ => .ok ⟨none, .null, []⟩) "x" =
      (.err (.apiError "expected location header"),
       [⟨"https", "api.soundcloud.com/resolve",
         [("client_id", "cid"), ("url", "x")]⟩]) :=
  ⟨(c5_resolve_location "cid" "x"
      (fun _ => .ok ⟨some "https://api.example/tracks/1", .null, []⟩)
      ⟨"https", "api.soundcloud.com/resolve", [("client_id", "cid"), ("url", "x")]⟩
      ⟨some "https://api.example/tracks/1", .null, []⟩ rfl rfl).1
      "https://api.example/tracks/1" ⟨"https", "api.example/tracks/1", []⟩ rfl rfl,
   (c5_resolve_location "cid" "x" (fun _ => .ok ⟨none, .null, []⟩)
      ⟨"https", "api.soundcloud.com/resolve", [("client_id", "cid"), ("url", "x")]⟩
      ⟨none, .null, []⟩ rfl rfl).2.1 rfl⟩

/-- C6: whenever the builder serializes at all (i.e. `request_params` does not
hit the `unimplemented!()` paths), the parameter list uses exactly the keys
`q`, `tags`, `filter`, `ids`, `genres`, `types` — in that order, one key per
set field, every unset field omitted entirely — and carries the free text,
the stored comma-joined strings, the rendered filter token and the
comma-joined decimal ids as values. -/
theorem c6_serialized_params (b : TrackRequestBuilder)
    (l : List (String × String)) (hl : b.request_params = some l) :
    l.map Prod.fst =
      ((if b.query.isSome then ["q"] else []) ++
       (if b.tags.isSome then ["tags"] else []) ++
       (if b.filter.isSome then ["filter"] else []) ++
       (if b.ids.isSome then ["ids"] else []) ++
       (if b.genres.isSome then ["genres"] else []) ++
       (if b.types.isSome then ["types"] else [])) ∧
    (∀ q, b.query = some q → ("q", q) ∈ l) ∧
    (∀ t, b.tags = some t → ("tags", t) ∈ l) ∧
    (∀ f, b.filter = some f → ("filter", f.to_str) ∈ l) ∧
    (∀ ids, b.ids = some ids →
      ("ids", String.intercalate "," (ids.map (fun i => Nat.repr i))) ∈ l) ∧
    (∀ g, b.genres = some g → ("genres", g) ∈ l) ∧
    (∀ t, b.types = some t → ("types", t) ∈ l) := by
  cases hd : b.duration <;> cases hbp : b.bpm <;>
    cases hq : b.query <;> cases ht : b.tags <;> cases hf : b.filter <;>
    cases hi : b.ids <;> cases hg : b.genres <;> cases hty : b.types <;>
    simp [TrackRequestBuilder.request_params, hd, hbp, hq, ht, hf, hi, hg, hty] at hl <;>
    subst hl <;> simp

/-- Witness for C6: a builder with only `query` and `ids` set serializes to
exactly `q` then `ids`, with the ids comma-joined as decimals. -/
theorem c6_serialized_params_witness :
    ([("q", "hello"), ("ids", "1,2")].map Prod.fst = ["q", "ids"]) ∧
    (("q", "hello") ∈ [("q", "hello"), ("ids", "1,2")]) ∧
    (("ids", "1,2") ∈ [("q", "hello"), ("ids", "1,2")]) ∧
    ((TrackRequestBuilder.new.set_query (some "hello")).set_ids
      (some [1, 2])).request_params = some [("q", "hello"), ("ids", "1,2")] :=
  have h := c6_serialized_params
    ((TrackRequestBuilder.new.set_query (some "hello")).set_ids (some [1, 2]))
    [("q", "hello"), ("ids", "1,2")] rfl
  ⟨h.1, h.2.1 "hello" rfl, h.2.2.2.2.1 [1, 2] rfl, rfl⟩

/-- C7: for every builder field with a setter, calling the setter twice in
succession leaves exactly the state — and hence exactly the serialized
parameter list — of the second call (last-write-wins, no accumulation). -/
theorem c7_last_write_wins (b : TrackRequestBuilder) :
    (∀ a a2 : Option String, (b.set_query a).set_query a2 = b.set_query a2 ∧
      ((b.set_query a).set_query a2).request_params = (b.set_query a2).request_params) ∧
    (∀ a a2 : Option (List String), (b.set_tags a).set_tags a2 = b.set_tags a2 ∧
      ((b.set_tags a).set_tags a2).request_params = (b.set_tags a2).request_params) ∧
    (∀ a a2 : Option Filter, (b.set_filter a).set_filter a2 = b.set_filter a2 ∧
      ((b.set_filter a).set_filter a2).request_params = (b.set_filter a2).request_params) ∧
    (∀ a a2 : Option String, (b.set_license a).set_license a2 = b.set_license a2 ∧
      ((b.set_license a).set_license a2).request_params = (b.set_license a2).request_params) ∧
    (∀ a a2 : Option (List Nat), (b.set_ids a).set_ids a2 = b.set_ids a2 ∧
      ((b.set_ids a).set_ids a2).request_params = (b.set_ids a2).request_params) ∧
    (∀ a a2 : Option (List String), (b.set_genres a).set_genres a2 = b.set_genres a2 ∧
      ((b.set_genres a).set_genres a2).request_params = (b.set_genres a2).request_params) :=
  ⟨fun _ _ => ⟨rfl, rfl⟩, fun _ _ => ⟨rfl, rfl⟩, fun _ _ => ⟨rfl, rfl⟩,
   fun _ _ => ⟨rfl, rfl⟩, fun _ _ => ⟨rfl, rfl⟩, fun _ _ => ⟨rfl, rfl⟩⟩

/-- C9: for every Filter value, parsing the rendered token yields the value
back, and parsing any string outside the three lowercase tokens returns an
`InvalidFilter` error carrying the offending input (a typed error value, not a
panic and not a default). -/
theorem c9_filter_roundtrip :
    (∀ f : Filter, Filter.from_str f.to_str = .ok f) ∧
    (∀ s : String, s ≠ "all" → s ≠ "public" → s ≠ "private" →
      Filter.from_str s = .error (.invalidFilter s)) := by
  constructor
  · intro f
    cases f <;> rfl
  · intro s h1 h2 h3
    simp [Filter.from_str, h1, h2, h3]

/-- Witness for C9 at concrete inputs: `parse(render All) = All` and
`parse "bogus"` fails with `InvalidFilter "bogus"`. -/
theorem c9_filter_roundtrip_witness :
    Filter.from_str (Filter.to_str .All) = .ok .All ∧
    Filter.from_str "bogus" = .error (.invalidFilter "bogus") :=
  ⟨c9_filter_roundtrip.1 .All,
   c9_filter_roundtrip.2 "bogus" (by decide) (by decide) (by decide)⟩

/-- C10: track equality holds exactly when the two ids are equal, independent
of every other field (the theorem quantifies over arbitrary records `A`, `B`,
so no other field influences the result). -/
theorem c10_track_eq_iff_id (A B : Track) :
    trackEq A B = true ↔ A.id = B.id := by
  unfold trackEq
  simp only [beq_iff_eq]
  exact eq_comm

/-- The character data of an appended string is the appended character data. -/
theorem strData_append (a b : String) : (a ++ b).data = a.data ++ b.data :=
  rfl

/-- String append is associative. -/
theorem strAppend_assoc (a b c : String) : (a ++ b) ++ c = a ++ (b ++ c) := by
  show String.mk ((a.data ++ b.data) ++ c.data) = String.mk (a.data ++ (b.data ++ c.data))
  rw [List.append_assoc]

/-- Helper: `splitFirst` finds nothing when the character does not occur. -/
theorem splitFirst_of_not_mem (c : Char) (l : List Char) (h : c ∉ l) :
    splitFirst c l = none := by
  induction l with
  | nil => rfl
  | cons x xs ih =>
    simp only [List.mem_cons, not_or] at h
    rw [splitFirst, if_neg (fun hxc => h.1 hxc.symm), ih h.2]

/-- The scheme separator of `https://…` is found right after `https`. -/
theorem findSplit_https (s : String) :
    findSplit "://".data ("https://" ++ s).data = some ("https".data, s.data) :=
  rfl

/-- Parsing `https://` followed by a `?`-free remainder yields that remainder
as the host-and-path, with an empty query. -/
theorem urlParse_https (s : String) (h : '?' ∉ s.data) :
    urlParse ("https://" ++ s) = some ⟨"https", s, []⟩ := by
  have h1 : findSplit "://".data ("https://" ++ s).data = some ("https".data, s.data) :=
    findSplit_https s
  have h2 : splitFirst '?' s.data = none := splitFirst_of_not_mem _ _ h
  unfold urlParse
  rw [h1]
  simp only [h2]

/-- C8 counterexample: for the path `/x?a=b` (a path that itself carries a
query component) the authenticated-GET primitive builds a query whose first
parameter is the path's own pair `a=b`, not the credential — the claim's
"credential parameter first, for every path" fails. -/
theorem c8_counterexample :
    (clientGetUrl "cid" "/x?a=b" (some [])).map Url.query =
      some [("a", "b"), ("client_id", "cid")] ∧
    (clientGetUrl "cid" "/x?a=b" (some [])).map (fun u => u.query.head?) ≠
      some (some ("client_id", "cid")) :=
  ⟨rfl, by decide⟩

/-- C8 as amended: for every path that does not itself contain a `?` (so the
parsed base URL carries no query of its own), the authenticated-GET primitive
builds a URL whose query has the credential pair `client_id` first, followed
by every caller parameter in the order given; caller parameters never replace
the credential pair, and no de-duplication happens (the conclusion holds for
arbitrary `params`, including ones that reuse the key `client_id`). -/
theorem c8_credential_first (client_id path : String)
    (params : List (String × String)) (h : '?' ∉ path.data) :
    ∃ u, clientGetUrl client_id path (some params) = some u ∧
      u.query = ("client_id", client_id) :: params := by
  have hq : '?' ∉ (API_HOST ++ path).data := by
    rw [strData_append]
    intro hmem
    rcases List.mem_append.mp hmem with hm | hm
    · revert hm
      decide
    · exact h hm
  have hassoc : "https://" ++ API_HOST ++ path = "https://" ++ (API_HOST ++ path) :=
    strAppend_assoc "https://" API_HOST path
  refine ⟨⟨"https", API_HOST ++ path, ("client_id", client_id) :: params⟩, ?_, rfl⟩
  unfold clientGetUrl
  rw [hassoc, urlParse_https _ hq]
  rfl

/-- Witness for the amended C8: for the query-free path `/tracks` and a caller
parameter that even reuses the credential key, the built query is the
credential pair first, then the caller pair — both present, un-deduplicated. -/
theorem c8_credential_first_witness :
    ∃ u, clientGetUrl "cid" "/tracks" (some [("client_id", "evil")]) = some u ∧
      u.query = [("client_id", "cid"), ("client_id", "evil")] :=
  c8_credential_first "cid" "/tracks" [("client_id", "evil")] (by decide)

end Soundcloud
